import Mathlib

/-!
Shallow embedding of the qrmaster batch/record lifecycle manager
(source: src/app.py).

The relational store is modelled as explicit lists of rows (`Batch`,
`QRRecord` mirror the two SQLAlchemy models); the upload directory is a
list of stored file names (`FS`).  Every route handler becomes a pure
function from the pre-state (plus the request data and, where the code
reads the clock, an explicit timestamp) to the post-state and a response.
Best-effort filesystem deletion (the try/except-pass pattern around
os.remove) is modelled by a per-file success oracle `fileOk`; the
try/except around the transactional database step is modelled by a `dbOk`
flag: on failure the session is rolled back, so the database component of
the state is returned unchanged and an error response is produced.
Python's datetime.fromtimestamp is modelled as UTC civil-time conversion
(the timezone offset shifts the field values, not the format).
-/

namespace QRMaster

/-- Row of the `batch` table (class Batch in app.py). -/
structure Batch where
  id : String
  name : String
  created_at : Nat
deriving Repr, DecidableEq

/-- Row of the `qr_record` table (class QRRecord in app.py). -/
structure QRRecord where
  id : String
  batch_id : String
  created_at : Nat
  report_title : Option String
  report_note : Option String
  report_file : Option String
  file_name : Option String
deriving Repr, DecidableEq

/-- The relational store: the two tables of the SQLite database. -/
structure DB where
  batches : List Batch
  records : List QRRecord
deriving Repr, DecidableEq

/-- The upload directory, as the list of stored file names. -/
abbrev FS := List String

/-- file.save(path): stores a name in the upload directory (overwriting a
same-named file leaves the name set unchanged). -/
def fsSave (fs : FS) (name : String) : FS :=
  if name ∈ fs then fs else name :: fs

/-- The pattern `if os.path.exists(path): os.remove(path)` used throughout
app.py: removing an absent name is a no-op. -/
def fsRemoveIfExists (fs : FS) (name : String) : FS :=
  if name ∈ fs then fs.filter (fun f => f != name) else fs

/-- Characters kept by werkzeug's filename sanitation regex
(ASCII letters, digits, underscore, dot, dash). -/
def asciiSafe (c : Char) : Bool :=
  ('A'.val ≤ c.val && c.val ≤ 'Z'.val) || ('a'.val ≤ c.val && c.val ≤ 'z'.val) ||
  ('0'.val ≤ c.val && c.val ≤ '9'.val) || c == '_' || c == '.' || c == '-'

/-- Characters stripped off both ends by secure_filename. -/
def stripChar (c : Char) : Bool := c == '.' || c == '_'

/-- Python's str.split() with no separator: maximal non-whitespace runs,
with empty pieces discarded.  The accumulator holds the current word
reversed. -/
def wordsAux : List Char → List Char → List (List Char)
  | [], acc => if acc.isEmpty then [] else [acc.reverse]
  | c :: cs, acc =>
    if c.isWhitespace then
      if acc.isEmpty then wordsAux cs [] else acc.reverse :: wordsAux cs []
    else wordsAux cs (c :: acc)

/-- Python's "_".join applied to a list of words. -/
def joinUnderscore : List (List Char) → List Char
  | [] => []
  | [w] => w
  | w :: ws => w ++ '_' :: joinUnderscore ws

/-- werkzeug.utils.secure_filename on a POSIX host, for ASCII input (on
ASCII the NFKD-normalise-then-ASCII-encode step is the identity): replace
the path separator by a space, split on whitespace and rejoin with
underscores, drop unsafe characters, and strip leading/trailing dots and
underscores. -/
def secure_filename (s : String) : String :=
  let cs := s.toList.map (fun c => if c == '/' then ' ' else c)
  let joined := joinUnderscore (wordsAux cs [])
  let stripped := joined.filter asciiSafe
  String.mk (((stripped.dropWhile stripChar).reverse.dropWhile stripChar).reverse)

/-- Zero-padded two-digit field of strftime. -/
def pad2 (n : Nat) : String :=
  if n < 10 then "0" ++ Nat.repr n else Nat.repr n

/-- Full English month name, as strftime's %B renders it in the C locale. -/
def monthName : Nat → String
  | 1 => "January"
  | 2 => "February"
  | 3 => "March"
  | 4 => "April"
  | 5 => "May"
  | 6 => "June"
  | 7 => "July"
  | 8 => "August"
  | 9 => "September"
  | 10 => "October"
  | 11 => "November"
  | 12 => "December"
  | _ => ""

/-- Civil date (year, month, day) from a count of days since 1970-01-01
(the standard days-from-civil inverse, restricted to the epoch onward). -/
def civilFromDays (z : Nat) : Nat × Nat × Nat :=
  let z' := z + 719468
  let era := z' / 146097
  let doe := z' % 146097
  let yoe := (doe - doe / 1460 + doe / 36524 - doe / 146096) / 365
  let y := yoe + era * 400
  let doy := doe - (365 * yoe + yoe / 4 - yoe / 100)
  let mp := (5 * doy + 2) / 153
  let d := doy - (153 * mp + 2) / 5 + 1
  let m := if mp < 10 then mp + 3 else mp - 9
  (if m ≤ 2 then y + 1 else y, m, d)

/-- datetime.fromtimestamp(sec).strftime of the pattern used by
create_folder: zero-padded day, full month name, year, and zero-padded
HH:MM, from a timestamp in seconds. -/
def formatTimestamp (sec : Nat) : String :=
  let ymd := civilFromDays (sec / 86400)
  let hh := sec % 86400 / 3600
  let mm := sec % 3600 / 60
  pad2 ymd.2.2 ++ " " ++ monthName ymd.2.1 ++ " " ++ Nat.repr ymd.1 ++ " " ++
    pad2 hh ++ ":" ++ pad2 mm

/-- Errors surfaced by the handlers: 404 Not found, integrity (duplicate
primary key) failure on commit, 400 No data, and the 500 rollback path. -/
inductive AppError
  | notFound
  | conflict
  | badRequest
  | persistence
deriving Repr, DecidableEq

/-- Batch.to_dict() augmented with the qrCount key, as returned by the
folder endpoints. -/
structure FolderDict where
  id : String
  name : String
  createdAt : Nat
  qrCount : Nat
deriving Repr, DecidableEq

/-- The GROUP BY subquery of get_folders: one row per batch_id that owns
at least one record, carrying the record count for that batch_id. -/
def qr_count_rows (recs : List QRRecord) : List (String × Nat) :=
  (recs.map (fun r => r.batch_id)).dedup.map
    (fun bid => (bid, (recs.filter (fun r => r.batch_id == bid)).length))

/-- GET /api/folders: batches ordered by created_at descending, outer
joined against the count subquery; a missing or falsy count renders as 0. -/
def get_folders (db : DB) : List FolderDict :=
  let counts := qr_count_rows db.records
  (db.batches.mergeSort (fun a b => b.created_at ≤ a.created_at)).map (fun b =>
    match counts.lookup b.id with
    | some n => { id := b.id, name := b.name, createdAt := b.created_at,
                  qrCount := if n = 0 then 0 else n }
    | none => { id := b.id, name := b.name, createdAt := b.created_at, qrCount := 0 })

/-- Python's str.strip(): drop leading and trailing whitespace. -/
def pyStrip (s : String) : String :=
  String.mk (((s.toList.dropWhile Char.isWhitespace).reverse.dropWhile
    Char.isWhitespace).reverse)

/-- POST /api/folders: create a batch.  `name` is the optional request
field; `now_ms` is int(time.time() * 1000); `freshId` is the generated
uuid4 string.  A missing, empty or whitespace-only name is synthesized
from the creation timestamp. -/
def create_folder (db : DB) (name : Option String) (now_ms : Nat) (freshId : String) :
    DB × FolderDict :=
  let created_at := now_ms
  let finalName :=
    match name with
    | none => formatTimestamp (created_at / 1000)
    | some n => if pyStrip n == "" then formatTimestamp (created_at / 1000) else n
  let new_batch : Batch := { id := freshId, name := finalName, created_at := created_at }
  ({ db with batches := db.batches ++ [new_batch] },
   { id := freshId, name := finalName, createdAt := created_at, qrCount := 0 })

/-- One element of the POST /api/qrs/batch request body. -/
structure QRItem where
  id : String
  batchId : String
  createdAt : Nat
deriving Repr, DecidableEq

/-- Row built by the bulk_insert_mappings branch: every report column is
given explicitly as None. -/
def bulkRow (item : QRItem) : QRRecord :=
  { id := item.id, batch_id := item.batchId, created_at := item.createdAt,
    report_title := none, report_note := none, report_file := none, file_name := none }

/-- Row built by the per-item QRRecord(...) constructor branch: the report
columns are left at their nullable default. -/
def ormRow (item : QRItem) : QRRecord :=
  { id := item.id, batch_id := item.batchId, created_at := item.createdAt,
    report_title := none, report_note := none, report_file := none, file_name := none }

/-- Primary-key violation test for a pending insert: some new row's id
already exists in the table, or two new rows share an id. -/
def insertConflict (db : DB) (rows : List QRRecord) : Bool :=
  rows.any (fun r => db.records.any (fun r0 => r0.id == r.id)) ||
    !decide (rows.map (fun r => r.id)).Nodup

/-- db.session.commit() for a pending list of inserted rows: all-or-nothing;
a primary-key conflict persists nothing and raises. -/
def commitInsert (db : DB) (rows : List QRRecord) : DB × Except AppError Unit :=
  if insertConflict db rows then (db, Except.error AppError.conflict)
  else ({ db with records := db.records ++ rows }, Except.ok ())

/-- The strategy branch taken when len(data) > 1000: one set-oriented
bulk insert of all mapped rows, then commit. -/
def insertBulkPath (db : DB) (data : List QRItem) : DB × Except AppError Unit :=
  commitInsert db (data.map bulkRow)

/-- The strategy branch taken when len(data) ≤ 1000: per-item ORM objects
added to the session, then one commit. -/
def insertRowPath (db : DB) (data : List QRItem) : DB × Except AppError Unit :=
  commitInsert db (data.map ormRow)

/-- Response of a successful POST /api/qrs/batch. -/
structure BatchInsertResponse where
  success : Bool
  count : Nat
deriving Repr, DecidableEq

/-- POST /api/qrs/batch: bulk record creation with the size-1000 strategy
split. -/
def create_qr_batch (db : DB) (data : List QRItem) :
    DB × Except AppError BatchInsertResponse :=
  if data.isEmpty then (db, Except.error AppError.badRequest)
  else
    let r := if data.length > 1000 then insertBulkPath db data else insertRowPath db data
    match r.2 with
    | Except.ok _ => (r.1, Except.ok { success := true, count := data.length })
    | Except.error e => (r.1, Except.error e)

/-- QRRecord.query.get(id): primary-key lookup. -/
def findRecord (db : DB) (id : String) : Option QRRecord :=
  db.records.find? (fun r => r.id == id)

/-- Committing a mutated ORM row: the row with the given primary key is
replaced by its new value. -/
def setRecord (db : DB) (id : String) (r : QRRecord) : DB :=
  { db with records := db.records.map (fun r0 => if r0.id == id then r else r0) }

/-- The uploaded file part of a PUT /api/qrs/id request, when present. -/
structure FilePayload where
  filename : String
deriving Repr, DecidableEq

/-- The multipart form of a PUT /api/qrs/id request: optional file part,
optional reportTitle and reportNote fields, optional removeFile field
(the flag is set when it equals the string true). -/
structure UpdateRequest where
  file : Option FilePayload
  reportTitle : Option String
  reportNote : Option String
  removeFile : Option String
deriving Repr, DecidableEq

/-- PUT /api/qrs/id: update a record.  `nowSec` is int(time.time()).
Sequencing follows the handler: 404 check, file store-then-replace, title,
note, and finally the removeFile clear. -/
def update_qr (db : DB) (fs : FS) (id : String) (req : UpdateRequest) (nowSec : Nat) :
    DB × FS × Except AppError QRRecord :=
  match findRecord db id with
  | none => (db, fs, Except.error AppError.notFound)
  | some record =>
    let step1 : QRRecord × FS :=
      match req.file with
      | some f =>
        if f.filename != "" then
          let filename := secure_filename (id ++ "_" ++ Nat.repr nowSec ++ "_" ++ f.filename)
          let fs1 := fsSave fs filename
          let fs2 :=
            match record.report_file with
            | some old => fsRemoveIfExists fs1 old
            | none => fs1
          ({ record with report_file := some filename, file_name := some f.filename }, fs2)
        else (record, fs)
      | none => (record, fs)
    let record2 :=
      match req.reportTitle with
      | some t => { step1.1 with report_title := some t }
      | none => step1.1
    let record3 :=
      match req.reportNote with
      | some n => { record2 with report_note := some n }
      | none => record2
    let final : QRRecord × FS :=
      if req.removeFile == some "true" then
        let fsB :=
          match record3.report_file with
          | some old => fsRemoveIfExists step1.2 old
          | none => step1.2
        ({ record3 with report_file := none, file_name := none,
                        report_title := none, report_note := none }, fsB)
      else (record3, step1.2)
    (setRecord db id final.1, final.2, Except.ok final.1)

/-- DELETE /api/qrs/id/report: keep the record, drop its report. -/
def delete_report (db : DB) (fs : FS) (id : String) :
    DB × FS × Except AppError QRRecord :=
  match findRecord db id with
  | none => (db, fs, Except.error AppError.notFound)
  | some record =>
    let fs1 :=
      match record.report_file with
      | some old => fsRemoveIfExists fs old
      | none => fs
    let record1 := { record with report_file := none, file_name := none,
                                 report_title := none, report_note := none }
    (setRecord db id record1, fs1, Except.ok record1)

/-- Best-effort removal of every stored file owned by a list of records:
the try/except-pass loop; a file whose removal fails (fileOk is false) is
skipped and the loop continues. -/
def cleanupFiles (recs : List QRRecord) (fs : FS) (fileOk : String → Bool) : FS :=
  recs.foldl (fun acc r =>
    match r.report_file with
    | some f => if fileOk f then fsRemoveIfExists acc f else acc
    | none => acc) fs

/-- Response of POST /api/qrs/bulk-delete: the deleted_count key is only
present on the empty-input short-circuit. -/
structure BulkDeleteResponse where
  success : Bool
  deleted_count : Option Nat
deriving Repr, DecidableEq

/-- POST /api/qrs/bulk-delete: best-effort file cleanup for the given ids,
then one set-oriented DELETE; on database failure the transaction is
rolled back and a 500 error is returned. -/
def delete_records (db : DB) (fs : FS) (ids : List String) (fileOk : String → Bool)
    (dbOk : Bool) : DB × FS × Except AppError BulkDeleteResponse :=
  if ids.isEmpty then (db, fs, Except.ok { success := true, deleted_count := some 0 })
  else
    let records_with_files :=
      db.records.filter (fun r => ids.contains r.id && r.report_file.isSome)
    let fs1 := cleanupFiles records_with_files fs fileOk
    if dbOk then
      ({ db with records := db.records.filter (fun r => !ids.contains r.id) }, fs1,
       Except.ok { success := true, deleted_count := none })
    else (db, fs1, Except.error AppError.persistence)

/-- DELETE /api/folders/batch_id: best-effort file cleanup for the batch's
records, then delete the batch's records and the batch row in one
transaction; on database failure the transaction is rolled back and a 500
error is returned. -/
def delete_folder (db : DB) (fs : FS) (batch_id : String) (fileOk : String → Bool)
    (dbOk : Bool) : DB × FS × Except AppError Unit :=
  let records_with_files :=
    db.records.filter (fun r => r.batch_id == batch_id && r.report_file.isSome)
  let fs1 := cleanupFiles records_with_files fs fileOk
  if dbOk then
    ({ batches := db.batches.filter (fun b => b.id != batch_id),
       records := db.records.filter (fun r => r.batch_id != batch_id) }, fs1,
     Except.ok ())
  else (db, fs1, Except.error AppError.persistence)

/-- All four report fields of a record are null. -/
def reportCleared (r : QRRecord) : Prop :=
  r.report_file = none ∧ r.file_name = none ∧ r.report_title = none ∧ r.report_note = none

/-! Helper lemmas. -/

theorem bulkRow_eq_ormRow : bulkRow = ormRow := rfl

theorem commitInsert_of_conflict (db : DB) (rows : List QRRecord)
    (h : insertConflict db rows = true) :
    commitInsert db rows = (db, Except.error AppError.conflict) := by
  simp [commitInsert, h]

/-! Claim C2. -/

/-- C2: the bulk/set-oriented insert branch (taken when the input length
exceeds 1000) and the row-by-row branch (taken otherwise) are
observationally equivalent: on every pre-state and input sequence they
produce the same post-state and outcome, and the database create_qr_batch
leaves behind is always the one the row-by-row path alone would leave. -/
theorem insert_strategies_equivalent (db : DB) (data : List QRItem) :
    insertBulkPath db data = insertRowPath db data ∧
    (create_qr_batch db data).1 = (insertRowPath db data).1 := by
  have hb : insertBulkPath db data = insertRowPath db data := by
    simp [insertBulkPath, insertRowPath, bulkRow_eq_ormRow]
  refine ⟨hb, ?_⟩
  by_cases he : data.isEmpty
  · have hnil : data = [] := List.isEmpty_iff.mp he
    subst hnil
    simp [create_qr_batch, insertRowPath, commitInsert, insertConflict]
  · simp only [create_qr_batch, he, Bool.false_eq_true, if_false]
    rw [show (if data.length > 1000 then insertBulkPath db data else insertRowPath db data) =
        insertRowPath db data by rw [hb]; simp]
    cases h2 : (insertRowPath db data).2 <;> simp [h2]

/-! Claim C3. -/

/-- C3: if some item of the input carries an id that already exists in the
record table, create_qr_batch fails with the conflict error and the
database is returned exactly as it was: no item of the sequence is
persisted. -/
theorem create_qr_batch_conflict (db : DB) (data : List QRItem)
    (h : ∃ item ∈ data, ∃ r ∈ db.records, r.id = item.id) :
    create_qr_batch db data = (db, Except.error AppError.conflict) := by
  obtain ⟨item, hitem, r, hr, hid⟩ := h
  have hne : data.isEmpty = false := by
    cases data with
    | nil => cases hitem
    | cons a t => rfl
  have hc : insertConflict db (data.map ormRow) = true := by
    simp only [insertConflict, Bool.or_eq_true, List.any_eq_true]
    exact Or.inl ⟨ormRow item, List.mem_map_of_mem _ hitem,
      ⟨r, hr, by simp [ormRow, hid]⟩⟩
  have hcommit : commitInsert db (data.map ormRow) = (db, Except.error AppError.conflict) :=
    commitInsert_of_conflict db _ hc
  simp only [create_qr_batch, hne, Bool.false_eq_true, if_false,
    insertBulkPath, insertRowPath, bulkRow_eq_ormRow]
  by_cases hlen : data.length > 1000 <;> simp [hlen, hcommit]

/-- Witness for C3 at a concrete input: a one-record table and a one-item
input re-using the existing id. -/
theorem create_qr_batch_conflict_witness :
    create_qr_batch
        { batches := [], records := [⟨"a", "b1", 5, none, none, none, none⟩] }
        [⟨"a", "b2", 9⟩] =
      ({ batches := [], records := [⟨"a", "b1", 5, none, none, none, none⟩] },
       Except.error AppError.conflict) :=
  create_qr_batch_conflict _ _
    ⟨⟨"a", "b2", 9⟩, by simp, ⟨"a", "b1", 5, none, none, none, none⟩, by simp, rfl⟩

/-! Claim C1. -/

/-- C1 counterexample: on a non-empty id set the bulk-delete endpoint does
not report how many rows were removed — the response body is only
success true, with no deleted_count key (here the claim predicts a
removed count of 0, since the single id is unknown). -/
theorem delete_records_no_count_cex :
    (delete_records { batches := [], records := [] } [] ["x"] (fun _ => true) true).2.2 =
      Except.ok { success := true, deleted_count := none } ∧
    ({ success := true, deleted_count := none } : BulkDeleteResponse) ≠
      { success := true, deleted_count := some 0 } := by
  exact ⟨rfl, by decide⟩

/-- C1 amended: an empty id set short-circuits, returning success with
deleted_count 0 and touching neither the filesystem nor the database; a
non-empty id set removes exactly the records whose id is listed (unknown
ids are silently ignored) and returns success without any removed count. -/
theorem delete_records_spec (db : DB) (fs : FS) (ids : List String)
    (fileOk : String → Bool) (dbOk : Bool) :
    (ids = [] → delete_records db fs ids fileOk dbOk =
      (db, fs, Except.ok { success := true, deleted_count := some 0 })) ∧
    (ids ≠ [] → dbOk = true →
      (delete_records db fs ids fileOk dbOk).1.records =
        db.records.filter (fun r => !ids.contains r.id) ∧
      (delete_records db fs ids fileOk dbOk).1.batches = db.batches ∧
      (delete_records db fs ids fileOk dbOk).2.2 =
        Except.ok { success := true, deleted_count := none }) := by
  constructor
  · intro h
    subst h
    rfl
  · intro h hdb
    have hne : ids.isEmpty = false := by
      cases ids with
      | nil => exact absurd rfl h
      | cons a t => rfl
    subst hdb
    simp [delete_records, hne]

/-- Witness for C1 as amended: the empty-set short-circuit on a concrete
state, and a concrete two-id delete where one id is unknown. -/
theorem delete_records_spec_witness :
    delete_records { batches := [], records := [] } ["keep"] [] (fun _ => true) true =
      ({ batches := [], records := [] }, ["keep"],
       Except.ok { success := true, deleted_count := some 0 }) ∧
    (delete_records { batches := [], records := [⟨"a", "b", 0, none, none, none, none⟩] }
        [] ["a", "x"] (fun _ => true) true).1.records = [] := by
  constructor
  · exact (delete_records_spec _ _ _ _ _).1 rfl
  · have h := ((delete_records_spec
      { batches := [], records := [⟨"a", "b", 0, none, none, none, none⟩] }
      [] ["a", "x"] (fun _ => true) true).2 (by decide) rfl).1
    rw [h]
    rfl

/-! Claim C4. -/

/-- C4: updating a record whose id does not exist fails with the not-found
error, and both the database and the upload directory are returned
untouched: the existence check precedes every filesystem write. -/
theorem update_qr_not_found (db : DB) (fs : FS) (id : String) (req : UpdateRequest)
    (nowSec : Nat) (h : findRecord db id = none) :
    update_qr db fs id req nowSec = (db, fs, Except.error AppError.notFound) := by
  simp [update_qr, h]

/-- Witness for C4: an update carrying a file payload against an empty
record table writes nothing. -/
theorem update_qr_not_found_witness :
    update_qr { batches := [], records := [] } ["f"] "r"
        { file := some { filename := "a.txt" }, reportTitle := some "t",
          reportNote := none, removeFile := none } 7 =
      ({ batches := [], records := [] }, ["f"], Except.error AppError.notFound) :=
  update_qr_not_found _ _ _ _ _ rfl

/-! Claim C5. -/

/-- C5: whenever an update call carries the remove-file flag (the form
field removeFile set to true), and whenever the report-only deletion
endpoint succeeds, the record that is returned — which is exactly the one
written back to the database — has all four report fields (attachment
reference, original filename, title, note) null together, regardless of
which file/title/note steps also ran earlier in the same call. -/
theorem remove_clears_all_fields :
    (∀ (db : DB) (fs : FS) (id : String) (req : UpdateRequest) (nowSec : Nat)
        (rec : QRRecord),
      req.removeFile = some "true" →
      (update_qr db fs id req nowSec).2.2 = Except.ok rec →
      reportCleared rec ∧ (update_qr db fs id req nowSec).1 = setRecord db id rec) ∧
    (∀ (db : DB) (fs : FS) (id : String) (rec : QRRecord),
      (delete_report db fs id).2.2 = Except.ok rec →
      reportCleared rec ∧ (delete_report db fs id).1 = setRecord db id rec) := by
  constructor
  · intro db fs id req nowSec rec hflag hok
    cases hf : findRecord db id with
    | none => simp [update_qr, hf] at hok
    | some record =>
      simp only [update_qr, hf, hflag, beq_self_eq_true, if_true] at hok ⊢
      rw [Except.ok.injEq] at hok
      subst hok
      exact ⟨⟨rfl, rfl, rfl, rfl⟩, rfl⟩
  · intro db fs id rec hok
    cases hf : findRecord db id with
    | none => simp [delete_report, hf] at hok
    | some record =>
      simp only [delete_report, hf] at hok ⊢
      rw [Except.ok.injEq] at hok
      subst hok
      exact ⟨⟨rfl, rfl, rfl, rfl⟩, rfl⟩

/-- Witness for C5: a concrete update with the remove flag set (while a
file, a title and a note are also supplied in the same call) and a
concrete report-only deletion, both ending with all four fields null. -/
theorem remove_clears_all_fields_witness :
    reportCleared
      ⟨"r", "b", 3, none, none, none, none⟩ ∧
    (update_qr { batches := [], records := [⟨"r", "b", 3, some "t0", none, some "f0", some "o0"⟩] }
        ["f0"] "r"
        { file := some { filename := "new.txt" }, reportTitle := some "t1",
          reportNote := some "n1", removeFile := some "true" } 9).1 =
      setRecord { batches := [], records := [⟨"r", "b", 3, some "t0", none, some "f0", some "o0"⟩] }
        "r" ⟨"r", "b", 3, none, none, none, none⟩ ∧
    (delete_report { batches := [], records := [⟨"q", "b", 4, some "t", some "n", some "g", some "o"⟩] }
        ["g"] "q").1 =
      setRecord { batches := [], records := [⟨"q", "b", 4, some "t", some "n", some "g", some "o"⟩] }
        "q" ⟨"q", "b", 4, none, none, none, none⟩ := by
  have h1 := remove_clears_all_fields.1
    { batches := [], records := [⟨"r", "b", 3, some "t0", none, some "f0", some "o0"⟩] }
    ["f0"] "r"
    { file := some { filename := "new.txt" }, reportTitle := some "t1",
      reportNote := some "n1", removeFile := some "true" } 9
    ⟨"r", "b", 3, none, none, none, none⟩ rfl (by rfl)
  have h2 := remove_clears_all_fields.2
    { batches := [], records := [⟨"q", "b", 4, some "t", some "n", some "g", some "o"⟩] }
    ["g"] "q" ⟨"q", "b", 4, none, none, none, none⟩ (by rfl)
  exact ⟨h1.1, h1.2, h2.2⟩

/-! Claim C6. -/

/-- C6 counterexample: a record stored its current attachment at second 0
under the name r_0_a.txt; at second 0 the caller uploads a.txt again.
The generated storage name collides with the prior one, so the handler
saves the new file and then, while deleting the "previous" file, deletes
the very file it just saved: afterwards the upload directory is empty
while the record still references r_0_a.txt — it does not reference one
live stored file, refuting the claim at this input. -/
theorem update_qr_same_name_cex :
    update_qr
        { batches := [],
          records := [⟨"r", "b", 0, some "t", some "n", some "r_0_a.txt", some "a.txt"⟩] }
        ["r_0_a.txt"] "r"
        { file := some { filename := "a.txt" }, reportTitle := none, reportNote := none,
          removeFile := none } 0 =
      ({ batches := [],
         records := [⟨"r", "b", 0, some "t", some "n", some "r_0_a.txt", some "a.txt"⟩] },
       ([] : FS),
       Except.ok ⟨"r", "b", 0, some "t", some "n", some "r_0_a.txt", some "a.txt"⟩) := by
  rfl

theorem mem_fsSave (fs : FS) (name : String) : name ∈ fsSave fs name := by
  by_cases h : name ∈ fs <;> simp [fsSave, h]

theorem mem_fsRemoveIfExists (fs : FS) (a b : String) (ha : a ∈ fs) (hne : a ≠ b) :
    a ∈ fsRemoveIfExists fs b := by
  by_cases h : b ∈ fs <;> simp [fsRemoveIfExists, h, ha, hne]

theorem not_mem_fsRemoveIfExists (fs : FS) (b : String) : b ∉ fsRemoveIfExists fs b := by
  by_cases h : b ∈ fs <;> simp [fsRemoveIfExists, h]

/-- C6 as amended: when an update carries a non-empty file payload, the
record already owns an attachment, the remove flag is not set, and the
freshly generated storage name (secure_filename of id_epochSeconds_name,
which is timestamp-unique in practice) differs from the prior stored
name, then the new file is stored first and exactly the previous stored
file is deleted afterwards, and the returned record references the new
name — which is live in the upload directory while the old name is not —
with the original filename recorded.  The unamended claim fails when the
two names collide (same record, same second, same original name). -/
theorem update_qr_replace_attachment (db : DB) (fs : FS) (id : String)
    (req : UpdateRequest) (nowSec : Nat) (rec : QRRecord) (f : FilePayload) (old : String)
    (hfind : findRecord db id = some rec)
    (hfile : req.file = some f)
    (hne : f.filename ≠ "")
    (hold : rec.report_file = some old)
    (hrm : req.removeFile ≠ some "true")
    (hdiff : secure_filename (id ++ "_" ++ Nat.repr nowSec ++ "_" ++ f.filename) ≠ old) :
    (update_qr db fs id req nowSec).2.1 =
      fsRemoveIfExists
        (fsSave fs (secure_filename (id ++ "_" ++ Nat.repr nowSec ++ "_" ++ f.filename)))
        old ∧
    secure_filename (id ++ "_" ++ Nat.repr nowSec ++ "_" ++ f.filename) ∈
      (update_qr db fs id req nowSec).2.1 ∧
    old ∉ (update_qr db fs id req nowSec).2.1 ∧
    (∃ r', (update_qr db fs id req nowSec).2.2 = Except.ok r' ∧
      r'.report_file =
        some (secure_filename (id ++ "_" ++ Nat.repr nowSec ++ "_" ++ f.filename)) ∧
      r'.file_name = some f.filename) := by
  have hrmb : (req.removeFile == some "true") = false := by
    simpa using hrm
  have hneb : (f.filename != "") = true := by
    simpa using hne
  cases req with
  | mk rfile rtitle rnote rremove =>
    simp only at hfile hrmb
    subst hfile
    simp only [update_qr, hfind, hneb, hrmb, if_true, Bool.false_eq_true, if_false, hold]
    cases rtitle <;> cases rnote <;>
      exact ⟨trivial, mem_fsRemoveIfExists _ _ _ (mem_fsSave _ _) hdiff,
        not_mem_fsRemoveIfExists _ _, _, rfl, rfl, rfl⟩

/-- Witness for C6 as amended: a record owning old.txt receives a new
upload a.txt at second 5; the stored name r_5_a.txt replaces old.txt. -/
theorem update_qr_replace_attachment_witness :
    (update_qr { batches := [], records := [⟨"r", "b", 0, none, none, some "old.txt", some "o"⟩] }
        ["old.txt"] "r"
        { file := some { filename := "a.txt" }, reportTitle := none, reportNote := none,
          removeFile := none } 5).2.1 =
      fsRemoveIfExists
        (fsSave ["old.txt"] (secure_filename ("r" ++ "_" ++ Nat.repr 5 ++ "_" ++ "a.txt")))
        "old.txt" ∧
    secure_filename ("r" ++ "_" ++ Nat.repr 5 ++ "_" ++ "a.txt") ∈
      (update_qr { batches := [], records := [⟨"r", "b", 0, none, none, some "old.txt", some "o"⟩] }
        ["old.txt"] "r"
        { file := some { filename := "a.txt" }, reportTitle := none, reportNote := none,
          removeFile := none } 5).2.1 ∧
    "old.txt" ∉
      (update_qr { batches := [], records := [⟨"r", "b", 0, none, none, some "old.txt", some "o"⟩] }
        ["old.txt"] "r"
        { file := some { filename := "a.txt" }, reportTitle := none, reportNote := none,
          removeFile := none } 5).2.1 ∧
    (∃ r', (update_qr { batches := [], records := [⟨"r", "b", 0, none, none, some "old.txt", some "o"⟩] }
        ["old.txt"] "r"
        { file := some { filename := "a.txt" }, reportTitle := none, reportNote := none,
          removeFile := none } 5).2.2 = Except.ok r' ∧
      r'.report_file = some (secure_filename ("r" ++ "_" ++ Nat.repr 5 ++ "_" ++ "a.txt")) ∧
      r'.file_name = some "a.txt") :=
  update_qr_replace_attachment _ _ _ _ _ _ _ _ rfl rfl (by decide) rfl (by decide) (by decide)

/-! Claim C7. -/

theorem formatTimestamp_ne_empty (sec : Nat) : formatTimestamp sec ≠ "" := by
  intro h
  have hlen := congrArg String.length h
  have hsp : (" ").length = 1 := rfl
  have hemp : ("").length = 0 := rfl
  simp only [formatTimestamp, String.length_append, hsp, hemp] at hlen
  omega

/-- C7: creating a batch with a missing, empty or whitespace-only name
yields a batch whose name is the non-empty string synthesized from the
creation timestamp (day, full month name, year, hour:minute), whose id is
the freshly generated one (distinct from every existing batch id when the
generator is fresh), whose createdAt is the epoch-millisecond creation
time, and whose returned record count is zero. -/
theorem create_folder_default_name (db : DB) (name : Option String) (now_ms : Nat)
    (freshId : String)
    (hname : name = none ∨ ∃ s, name = some s ∧ pyStrip s = "")
    (hfresh : ∀ b ∈ db.batches, b.id ≠ freshId) :
    (create_folder db name now_ms freshId).2.name = formatTimestamp (now_ms / 1000) ∧
    (create_folder db name now_ms freshId).2.name ≠ "" ∧
    (create_folder db name now_ms freshId).2.id = freshId ∧
    (create_folder db name now_ms freshId).2.createdAt = now_ms ∧
    (create_folder db name now_ms freshId).2.qrCount = 0 ∧
    (∀ b ∈ db.batches, b.id ≠ (create_folder db name now_ms freshId).2.id) ∧
    (create_folder db name now_ms freshId).1.batches =
      db.batches ++ [{ id := freshId, name := formatTimestamp (now_ms / 1000),
                       created_at := now_ms }] := by
  have hsynth : (create_folder db name now_ms freshId).2.name =
      formatTimestamp (now_ms / 1000) := by
    rcases hname with h | ⟨s, hs, htrim⟩
    · subst h; rfl
    · subst hs
      simp [create_folder, htrim]
  refine ⟨hsynth, hsynth ▸ formatTimestamp_ne_empty _, rfl, rfl, rfl, hfresh, ?_⟩
  rcases hname with h | ⟨s, hs, htrim⟩
  · subst h; rfl
  · subst hs
    simp [create_folder, htrim]

/-- Witness for C7: a whitespace-only name at a concrete timestamp. -/
theorem create_folder_default_name_witness :
    (create_folder { batches := [⟨"b0", "old", 1⟩], records := [] } (some "  ")
        1696948200123 "u1").2.name = formatTimestamp (1696948200123 / 1000) ∧
    (create_folder { batches := [⟨"b0", "old", 1⟩], records := [] } (some "  ")
        1696948200123 "u1").2.name ≠ "" ∧
    (create_folder { batches := [⟨"b0", "old", 1⟩], records := [] } (some "  ")
        1696948200123 "u1").2.id = "u1" ∧
    (create_folder { batches := [⟨"b0", "old", 1⟩], records := [] } (some "  ")
        1696948200123 "u1").2.createdAt = 1696948200123 ∧
    (create_folder { batches := [⟨"b0", "old", 1⟩], records := [] } (some "  ")
        1696948200123 "u1").2.qrCount = 0 ∧
    (∀ b ∈ ({ batches := [⟨"b0", "old", 1⟩], records := [] } : DB).batches,
      b.id ≠ (create_folder { batches := [⟨"b0", "old", 1⟩], records := [] } (some "  ")
        1696948200123 "u1").2.id) ∧
    (create_folder { batches := [⟨"b0", "old", 1⟩], records := [] } (some "  ")
        1696948200123 "u1").1.batches =
      [⟨"b0", "old", 1⟩] ++ [{ id := "u1", name := formatTimestamp (1696948200123 / 1000),
                               created_at := 1696948200123 }] :=
  create_folder_default_name _ _ _ _ (Or.inr ⟨"  ", rfl, rfl⟩) (by decide)

/-! Claim C8. -/

/-- C8: whole-batch deletion first removes the stored files owned by the
batch's records best-effort (a per-file failure is skipped by the cleanup
fold and never influences the rest of the operation), and then deletes
the batch's records and the batch row as one transactional unit: on
database success both are gone together, and on database failure the
database is rolled back unchanged — never a half-deleted batch — while a
persistence error is surfaced. -/
theorem delete_folder_atomic (db : DB) (fs : FS) (batch_id : String)
    (fileOk : String → Bool) (dbOk : Bool) :
    (delete_folder db fs batch_id fileOk dbOk).2.1 =
      cleanupFiles
        (db.records.filter (fun r => r.batch_id == batch_id && r.report_file.isSome))
        fs fileOk ∧
    (dbOk = true →
      (delete_folder db fs batch_id fileOk dbOk).1.records =
        db.records.filter (fun r => r.batch_id != batch_id) ∧
      (delete_folder db fs batch_id fileOk dbOk).1.batches =
        db.batches.filter (fun b => b.id != batch_id) ∧
      (delete_folder db fs batch_id fileOk dbOk).2.2 = Except.ok ()) ∧
    (dbOk = false →
      (delete_folder db fs batch_id fileOk dbOk).1 = db ∧
      (delete_folder db fs batch_id fileOk dbOk).2.2 =
        Except.error AppError.persistence) := by
  cases dbOk <;> simp [delete_folder]

/-- Witness for C8: a two-record batch with one stored file, exercised on
the rolled-back branch and on the successful branch. -/
theorem delete_folder_atomic_witness :
    (delete_folder
        { batches := [⟨"b", "n", 0⟩],
          records := [⟨"r1", "b", 1, none, none, some "f1", none⟩,
                      ⟨"r2", "b", 2, none, none, none, none⟩] }
        ["f1", "f2"] "b" (fun _ => true) false).1 =
      { batches := [⟨"b", "n", 0⟩],
        records := [⟨"r1", "b", 1, none, none, some "f1", none⟩,
                    ⟨"r2", "b", 2, none, none, none, none⟩] } ∧
    (delete_folder
        { batches := [⟨"b", "n", 0⟩],
          records := [⟨"r1", "b", 1, none, none, some "f1", none⟩,
                      ⟨"r2", "b", 2, none, none, none, none⟩] }
        ["f1", "f2"] "b" (fun _ => true) false).2.2 =
      Except.error AppError.persistence ∧
    (delete_folder
        { batches := [⟨"b", "n", 0⟩],
          records := [⟨"r1", "b", 1, none, none, some "f1", none⟩,
                      ⟨"r2", "b", 2, none, none, none, none⟩] }
        ["f1", "f2"] "b" (fun _ => true) true).2.2 = Except.ok () := by
  refine ⟨?_, ?_, ?_⟩
  · exact ((delete_folder_atomic _ _ _ _ _).2.2 rfl).1
  · exact ((delete_folder_atomic _ _ _ _ _).2.2 rfl).2
  · exact ((delete_folder_atomic _ _ _ _ _).2.1 rfl).2.2

/-! Claim C10. -/

/-- C10: deleting a batch id that exists nowhere (no batch row and no
records reference it) reports success rather than not-found and leaves
both the database and the upload directory completely unchanged. -/
theorem delete_folder_unknown_id (db : DB) (fs : FS) (batch_id : String)
    (fileOk : String → Bool)
    (hb : ∀ b ∈ db.batches, b.id ≠ batch_id)
    (hr : ∀ r ∈ db.records, r.batch_id ≠ batch_id) :
    delete_folder db fs batch_id fileOk true = (db, fs, Except.ok ()) := by
  have h1 : db.records.filter (fun r => r.batch_id == batch_id && r.report_file.isSome)
      = [] := by
    rw [List.filter_eq_nil_iff]
    intro r hrm
    simp [hr r hrm]
  have h2 : db.records.filter (fun r => r.batch_id != batch_id) = db.records :=
    List.filter_eq_self.mpr fun r hrm => by simp [hr r hrm]
  have h3 : db.batches.filter (fun b => b.id != batch_id) = db.batches :=
    List.filter_eq_self.mpr fun b hbm => by simp [hb b hbm]
  simp [delete_folder, h1, h2, h3, cleanupFiles]

/-- Witness for C10: deleting an id unknown to a concrete non-empty
state. -/
theorem delete_folder_unknown_id_witness :
    delete_folder
        { batches := [⟨"b1", "n", 0⟩],
          records := [⟨"r1", "b1", 1, none, none, some "f1", none⟩] }
        ["f1"] "nope" (fun _ => true) true =
      ({ batches := [⟨"b1", "n", 0⟩],
         records := [⟨"r1", "b1", 1, none, none, some "f1", none⟩] },
       ["f1"], Except.ok ()) :=
  delete_folder_unknown_id _ _ _ _ (by decide) (by decide)

/-! Claim C9. -/

theorem lookup_map_self (l : List String) (g : String → Nat) (k : String) :
    (l.map (fun x => (x, g x))).lookup k = if k ∈ l then some (g k) else none := by
  induction l with
  | nil => simp
  | cons a t ih =>
    by_cases hk : k = a
    · subst hk
      simp [List.lookup]
    · have hb : (k == a) = false := by simpa using hk
      simp [List.lookup, hb, ih, hk]

/-- The outer-join annotation of one batch equals the direct per-batch
record count (including count 0 for a batch owning no records). -/
theorem get_folders_entry (db : DB) (b : Batch) :
    (match (qr_count_rows db.records).lookup b.id with
      | some n => ({ id := b.id, name := b.name, createdAt := b.created_at,
                     qrCount := if n = 0 then 0 else n } : FolderDict)
      | none => { id := b.id, name := b.name, createdAt := b.created_at, qrCount := 0 }) =
    { id := b.id, name := b.name, createdAt := b.created_at,
      qrCount := (db.records.filter (fun r => r.batch_id == b.id)).length } := by
  unfold qr_count_rows
  rw [lookup_map_self]
  by_cases hmem : b.id ∈ (db.records.map (fun r => r.batch_id)).dedup
  · simp only [hmem, if_true]
    by_cases hz : (db.records.filter (fun r => r.batch_id == b.id)).length = 0 <;>
      simp [hz]
  · simp only [hmem, if_false]
    have hnone : ∀ r ∈ db.records, ¬ (r.batch_id == b.id) = true := by
      intro r hram hbeq
      have heq : r.batch_id = b.id := by simpa using hbeq
      exact hmem (List.mem_dedup.mpr (List.mem_map.mpr ⟨r, hram, heq⟩))
    have : db.records.filter (fun r => r.batch_id == b.id) = [] :=
      List.filter_eq_nil_iff.mpr hnone
    simp [this]

/-- C9: get_folders returns one annotated entry per batch — a permutation
of the batch table mapped to its dictionary form, where each entry's
qrCount is the number of records whose batch_id matches (so a batch with
zero records still appears, with count 0) — and the returned sequence is
ordered by createdAt newest-first. -/
theorem get_folders_sorted_counts (db : DB) :
    (get_folders db).Perm (db.batches.map (fun b =>
      { id := b.id, name := b.name, createdAt := b.created_at,
        qrCount := (db.records.filter (fun r => r.batch_id == b.id)).length })) ∧
    (get_folders db).Pairwise (fun a b => b.createdAt ≤ a.createdAt) := by
  have hfun : (fun b : Batch =>
      match (qr_count_rows db.records).lookup b.id with
      | some n => ({ id := b.id, name := b.name, createdAt := b.created_at,
                     qrCount := if n = 0 then 0 else n } : FolderDict)
      | none => { id := b.id, name := b.name, createdAt := b.created_at, qrCount := 0 }) =
      (fun b : Batch =>
        { id := b.id, name := b.name, createdAt := b.created_at,
          qrCount := (db.records.filter (fun r => r.batch_id == b.id)).length }) :=
    funext fun b => get_folders_entry db b
  constructor
  · show ((db.batches.mergeSort (fun a b => b.created_at ≤ a.created_at)).map _).Perm _
    rw [hfun]
    exact (List.mergeSort_perm db.batches _).map _
  · show (((db.batches.mergeSort (fun a b => b.created_at ≤ a.created_at)).map _)).Pairwise _
    rw [hfun, List.pairwise_map]
    have hsorted : List.Pairwise
        (fun a b : Batch => (decide (b.created_at ≤ a.created_at)) = true)
        (db.batches.mergeSort (fun a b => b.created_at ≤ a.created_at)) :=
      List.sorted_mergeSort
        (fun a b c hab hbc => by
          simp only [decide_eq_true_eq] at hab hbc ⊢
          omega)
        (fun a b => by
          simp only [Bool.or_eq_true, decide_eq_true_eq]
          omega)
        db.batches
    exact hsorted.imp (fun h => by simpa using h)

end QRMaster
